import Mathlib

/-!
Verification of the FlowDeploy deployment-orchestration backend.

Shallow embedding of the relevant services:
  - `src/src/utils/SubdomainGenerator.js`  (subdomain generation)
  - `src/src/services/DeploymentService.js` (deploy / stop / restart / delete)
  - `src/src/services/NginxManager.js` (proxy config provisioning)
  - `src/src/services/ClawdBotService.js` (per-role deploy, port detection)
  - `src/src/services/PortManager.js` and the SSH manager (port allocation)
  - the subscription monitor (enforceSubscriptionLimits / deleteExpiredDeployments)

Remote and database effects are modelled by explicit environment records
(the observed remote state, per-command success flags) and by traces of the
side-effecting steps a call performs, in source order.  Randomness
(Math.random) is modelled by an arbitrary stream of naturals read at an
explicit position.
-/

namespace FlowDeploy

/-- Operational status values stored on a deployment record. -/
inductive DStatus
  | deploying
  | deployed
  | stopped
  | failed
  | suspended
deriving DecidableEq, Repr

/-- Character alphabet of SubdomainGenerator: `abcdefghijklmnopqrstuvwxyz0123456789`. -/
def sgChars : List Char := "abcdefghijklmnopqrstuvwxyz0123456789".toList

/-- One random draw: the JS `Math.floor(Math.random() * n)` is modelled by an
arbitrary stream `rng : Nat → Nat` read at position `k`, reduced mod `n`
so that the result lies in `[0, n)` as in the source. -/
def draw (rng : Nat → Nat) (k n : Nat) : Nat := rng k % n

/-- Embedding of `SubdomainGenerator.generate(length)`: draws `len` indices
into the 36-character alphabet; if the first character is a digit it is
replaced by one further draw restricted to the 26 letters.  Returns the
string together with the next unread position of the random stream. -/
def generate (rng : Nat → Nat) (pos len : Nat) : String × Nat :=
  match (List.range len).map (fun i => sgChars.getD (draw rng (pos + i) 36) 'a') with
  | [] => (String.mk [], pos + len)
  | c :: rest =>
    if c.isDigit then
      (String.mk (sgChars.getD (draw rng (pos + len) 26) 'a' :: rest), pos + len + 1)
    else
      (String.mk (c :: rest), pos + len)

/-- In-memory state of a SubdomainGenerator instance: the `usedSubdomains`
set and the current position of the random stream. -/
structure GenState where
  used : List String
  pos : Nat
deriving Repr

/-- Embedding of `SubdomainGenerator.generateUnique(existingSubdomains, maxAttempts)`
(the fuel argument is `maxAttempts`, 100 at the call sites): repeatedly
generate a 6-character token; accept it when it is in neither the
`existingSubdomains` argument nor the instance's `usedSubdomains` set
(recording it in the set); when the attempts are exhausted, return a fresh
8-character token without any collision check and without recording it. -/
def generateUnique (rng : Nat → Nat) (st : GenState) (existing : List String) :
    Nat → String × GenState
  | 0 =>
    let r := generate rng st.pos 8
    (r.1, { st with pos := r.2 })
  | fuel + 1 =>
    let r := generate rng st.pos 6
    if !(existing.contains r.1) && !(st.used.contains r.1) then
      (r.1, { used := r.1 :: st.used, pos := r.2 })
    else
      generateUnique rng { st with pos := r.2 } existing fuel

/-- A persisted Deployment record, with the fields the claims need. -/
structure DepRec where
  userId : Nat
  subdomain : String
  status : DStatus
  hasFrontRepo : Bool
  hasBackRepo : Bool
deriving DecidableEq, Repr

/-- Embedding of `Deployment.findByUserId(userId)`. -/
def findByUserId (db : List DepRec) (uid : Nat) : List DepRec :=
  db.filter (fun d => d.userId == uid)

/-- Subdomain-generation step of `DeploymentService.deploy` (and of the
POST /deploy route): the collision list passed to `generateUnique` is the
subdomains of the calling user's own deployments only. -/
def deployGenerateSubdomain (rng : Nat → Nat) (st : GenState) (db : List DepRec)
    (uid : Nat) : String × GenState :=
  generateUnique rng st ((findByUserId db uid).map (·.subdomain)) 100

/-- The random stream that always yields index 0 (every draw gives the letter a). -/
def rngZero : Nat → Nat := fun _ => 0

/-- A deployment of user 2 already holding the subdomain that `rngZero` produces. -/
def depOtherUser : DepRec :=
  { userId := 2, subdomain := "aaaaaa", status := .deployed,
    hasFrontRepo := true, hasBackRepo := false }

/-- The length of a string built from an explicit character list. -/
theorem length_mk (l : List Char) : (String.mk l).length = l.length := rfl

/-- The length of a generated token equals the requested length. -/
theorem generate_length (rng : Nat → Nat) (pos len : Nat) :
    (generate rng pos len).1.length = len := by
  unfold generate
  rcases h : (List.range len).map (fun i => sgChars.getD (draw rng (pos + i) 36) 'a') with
    _ | ⟨c, rest⟩
  · have hlen : len = 0 := by simpa using congrArg List.length h
    simp [hlen, length_mk]
  · have hlen : len = rest.length + 1 := by simpa using congrArg List.length h
    by_cases hc : c.isDigit <;> simp [hc, hlen, length_mk]

/-- C1 counterexample: with the always-zero random stream, the subdomain
generated for user 1 by the deploy step is exactly the subdomain already
held by an existing deployment of user 2 — the collision check only sees
the calling user's own records, so the generated subdomain collides with
another user's deployment. -/
theorem c1_subdomain_cross_user_collision :
    (deployGenerateSubdomain rngZero ⟨[], 0⟩ [depOtherUser] 1).1 = depOtherUser.subdomain ∧
    depOtherUser.userId ≠ 1 := by
  constructor
  · rfl
  · decide

/-- C1 (amended): `generateUnique` returns either a token absent from both
the `existingSubdomains` list it was given (at the deploy call sites, the
calling user's own subdomains) and the instance's in-memory set, or — after
exhausting `maxAttempts` — an unchecked 8-character escalation token.
Global uniqueness across users is not checked. -/
theorem c1_generateUnique_local_or_fallback (rng : Nat → Nat) (st : GenState)
    (existing : List String) (fuel : Nat) :
    (existing.contains (generateUnique rng st existing fuel).1 = false ∧
     st.used.contains (generateUnique rng st existing fuel).1 = false) ∨
    (generateUnique rng st existing fuel).1.length = 8 := by
  induction fuel generalizing st with
  | zero =>
    right
    simpa [generateUnique] using generate_length rng st.pos 8
  | succ n ih =>
    rw [generateUnique]
    split
    · rename_i hcond
      left
      simp only [Bool.and_eq_true, Bool.not_eq_true'] at hcond
      exact hcond
    · exact ih { st with pos := (generate rng st.pos 6).2 }

/-- A User record with the field `User.canDeploy` consults. -/
structure UserRec where
  maxDeployments : Nat
deriving Repr

/-- Embedding of `User.getDeploymentCount(userId)`: the number of the user's
deployments whose status is not `failed`. -/
def getDeploymentCount (db : List DepRec) (uid : Nat) : Nat :=
  (db.filter (fun d => d.userId == uid && !(d.status == .failed))).length

/-- Embedding of `User.canDeploy(userId)`: a total-count check against the
user's `max_deployments`, with no per-role quota involved. -/
def canDeploy (u : UserRec) (db : List DepRec) (uid : Nat) : Bool :=
  decide (getDeploymentCount db uid < u.maxDeployments)

/-- The externally visible steps of `DeploymentService.deploy` up to and
including port allocation (step 4 of the source). -/
inductive DeployAction
  | subdomainGen
  | recordCreate
  | portAlloc (count : Nat)
deriving DecidableEq, Repr

/-- Shape of a deploy request: whether a pre-created `deployment_id` was
supplied (the POST /deploy route always supplies one), whether its lookup
succeeds, and which roles are requested. -/
structure DeployReq where
  preCreated : Bool
  preFound : Bool
  hasFront : Bool
  hasBack : Bool
deriving Repr

/-- Number of ports requested from `findMultipleFreePorts` by deploy step 4. -/
def portsNeeded (req : DeployReq) : Nat :=
  (if req.hasFront then 1 else 0) + (if req.hasBack then 1 else 0)

/-- Embedding of `DeploymentService.deploy` from entry to port allocation:
with a pre-created deployment id the only check is that the record exists,
and the call proceeds straight to port allocation; without one,
`User.canDeploy` is consulted and, if it passes, the subdomain is generated
and the record created before ports are allocated. -/
def deployPhase1 (u : UserRec) (db : List DepRec) (uid : Nat) (req : DeployReq) :
    Except String (List DeployAction) :=
  if req.preCreated then
    if !req.preFound then .error "Pre-created deployment not found"
    else .ok [.portAlloc (portsNeeded req)]
  else
    if !(canDeploy u db uid) then
      .error "Deployment limit reached. Please upgrade your plan."
    else
      .ok [.subdomainGen, .recordCreate, .portAlloc (portsNeeded req)]

/-- Per-role limits of a subscription grant (`subscription.limits`). -/
structure PlanLimits where
  maxFrontend : Nat
  maxBackend : Nat
deriving Repr

/-- Embedding of the `checkDeploymentLimits` middleware (planLimits.js):
whether the request would be rejected — no active subscription, or a
requested role whose per-role count has reached the grant's limit.  This
middleware is not mounted on the deploy route; it is the spec's notion of
quota headroom, kept for comparison with `deployPhase1`. -/
def checkDeploymentLimitsRejects (subActive : Bool) (limits : PlanLimits)
    (db : List DepRec) (uid : Nat) (reqFront reqBack : Bool) : Bool :=
  if !subActive then true
  else
    (reqFront && decide (limits.maxFrontend ≤
        ((findByUserId db uid).filter (·.hasFrontRepo)).length)) ||
    (reqBack && decide (limits.maxBackend ≤
        ((findByUserId db uid).filter (·.hasBackRepo)).length))

/-- User 1's one active frontend deployment. -/
def depFront1 : DepRec :=
  { userId := 1, subdomain := "first1", status := .deployed,
    hasFrontRepo := true, hasBackRepo := false }

/-- A fresh (no pre-created id) frontend-only deploy request. -/
def freshFrontReq : DeployReq :=
  { preCreated := false, preFound := false, hasFront := true, hasBack := false }

/-- C2 counterexample: the spec's own scenario — a user with an active grant
of limits `max_frontend = 1, max_backend = 1`, one active frontend
deployment, requesting a second frontend deployment.  The per-role quota
headroom is exceeded (the unmounted middleware would reject), yet deploy
proceeds to port allocation with no quota error, because its only check is
`canDeploy` (1 non-failed deployment < 5 max_deployments). -/
theorem c2_quota_not_checked_before_ports :
    checkDeploymentLimitsRejects true ⟨1, 1⟩ [depFront1] 1 true false = true ∧
    deployPhase1 ⟨5⟩ [depFront1] 1 freshFrontReq =
      .ok [.subdomainGen, .recordCreate, .portAlloc 1] := by
  exact ⟨rfl, rfl⟩

/-- C2 (amended): deploy enforces only the total-count limit `canDeploy`,
and only on the branch without a pre-created deployment id; when that check
fails there, the request is rejected before any side effect (no subdomain
generation, record creation or port allocation appears in the trace). -/
theorem c2_count_limit_rejected_before_side_effects (u : UserRec) (db : List DepRec)
    (uid : Nat) (req : DeployReq) (hfresh : req.preCreated = false)
    (hq : canDeploy u db uid = false) :
    deployPhase1 u db uid req =
      .error "Deployment limit reached. Please upgrade your plan." := by
  simp [deployPhase1, hfresh, hq]

/-- C2 witness: a user at a zero deployment cap is rejected up front. -/
theorem c2_count_limit_witness :
    deployPhase1 ⟨0⟩ [] 1 freshFrontReq =
      .error "Deployment limit reached. Please upgrade your plan." :=
  c2_count_limit_rejected_before_side_effects ⟨0⟩ [] 1 freshFrontReq rfl (by decide)

/-- Per-command environment of `NginxManager.createSubdomainConfig`: success
flags of the remote file write, symlink creation, `nginx -t` test and
reload commands.  The write and symlink results are not inspected by the
source. -/
structure NginxEnv where
  writeOk : Bool
  linkOk : Bool
  testOk : Bool
  reloadOk : Bool
deriving DecidableEq, Repr

/-- Resulting proxy state: vhost file present in sites-available, enabling
symlink present in sites-enabled, nginx reloaded. -/
structure NginxFs where
  fileWritten : Bool
  linked : Bool
  reloaded : Bool
deriving DecidableEq, Repr

/-- Embedding of `createSubdomainConfig` (the plain and the SSL variant
share this ordering): write the vhost file, create the enabling symlink,
then run `nginx -t`, and reload only when the test succeeds; a failing test
or reload throws.  The write and symlink command results are ignored. -/
def createSubdomainConfig (env : NginxEnv) : NginxFs × Except String Unit :=
  let fs0 : NginxFs := { fileWritten := env.writeOk, linked := env.linkOk, reloaded := false }
  if !env.testOk then (fs0, .error "Nginx configuration test failed")
  else if !env.reloadOk then (fs0, .error "Nginx reload failed")
  else ({ fs0 with reloaded := true }, .ok ())

/-- C3 counterexample: with the write and symlink commands succeeding but
the validation (`nginx -t`) failing, the execution ends with the config
file written AND the enabling symlink in place while nginx was never
reloaded — the symlink is created before validation, so a failing
validation does leave a partial enablement. -/
theorem c3_linked_but_not_reloaded :
    (createSubdomainConfig ⟨true, true, false, true⟩).1.fileWritten = true ∧
    (createSubdomainConfig ⟨true, true, false, true⟩).1.linked = true ∧
    (createSubdomainConfig ⟨true, true, false, true⟩).1.reloaded = false ∧
    (createSubdomainConfig ⟨true, true, false, true⟩).2 =
      .error "Nginx configuration test failed" := by
  exact ⟨rfl, rfl, rfl, rfl⟩

/-- C3 (amended): the vhost file is written and the enabling symlink
created before validation, unconditionally; only the reload is gated on the
validation result, and the call returns success exactly when both the test
and the reload succeed (any failure is thrown to the caller). -/
theorem c3_reload_gated_on_validation (env : NginxEnv) :
    (createSubdomainConfig env).1.fileWritten = env.writeOk ∧
    (createSubdomainConfig env).1.linked = env.linkOk ∧
    (createSubdomainConfig env).1.reloaded = (env.testOk && env.reloadOk) ∧
    ((createSubdomainConfig env).2 = .ok () ↔ env.testOk = true ∧ env.reloadOk = true) := by
  cases env with
  | mk w l t r => cases t <;> cases r <;> simp [createSubdomainConfig]

/-- Observed remote state around one PM2 process, as read by the port
detection and verification commands: supervisor status, listening ports
found via lsof and netstat for the process pid (a failed pid lookup is the
empty list), the first port each log pattern matches (in the source's
pattern priority order), the two PM2 environment PORT readings
(`pm2_env.env.PORT` and `pm2_env.PORT`), and which ports respond as in
use. -/
structure Pm2State where
  online : Bool
  lsofPorts : List Nat
  netstatPorts : List Nat
  logMatches : List (Option Nat)
  envEnvPort : Option Nat
  envPort : Option Nat
  portActive : Nat → Bool

/-- The plausibility range every detected port is checked against. -/
def inRange (p : Nat) : Bool := decide (3000 ≤ p) && decide (p ≤ 9000)

/-- First in-range port of a socket-inspection listing (methods 1 and 1B). -/
def firstInRange (ps : List Nat) : Option Nat := (ps.filter inRange).head?

/-- Method 2: walk the patterns in priority order; the first match whose
port parses into range wins, and an out-of-range match falls through to the
next pattern. -/
def scanLogPatterns : List (Option Nat) → Option Nat
  | [] => none
  | some p :: rest => if inRange p then some p else scanLogPatterns rest
  | none :: rest => scanLogPatterns rest

/-- Embedding of `ClawdBotService.detectActualPort`: the short-circuiting
cascade lsof, netstat, log patterns, then the jq alternative
`pm2_env.env.PORT // pm2_env.PORT` subjected to the range check. -/
def detectActualPort (st : Pm2State) : Option Nat :=
  match firstInRange st.lsofPorts with
  | some p => some p
  | none =>
    match firstInRange st.netstatPorts with
    | some p => some p
    | none =>
      match scanLogPatterns st.logMatches with
      | some p => some p
      | none =>
        match st.envEnvPort.orElse (fun _ => st.envPort) with
        | some p => if inRange p then some p else none
        | none => none

/-- The supplementary PORT lookup deploy performs after both detection
attempts fail: it reads `pm2_env.PORT` only, with the same range check. -/
def extraEnvPortCheck (st : Pm2State) : Option Nat :=
  match st.envPort with
  | some p => if inRange p then some p else none
  | none => none

/-- Embedding of `verifyDeployment`: the process must be online and the
candidate port must show as in use (the three short probe retries read one
observed state here). -/
def verifyDeployment (st : Pm2State) (port : Nat) : Bool :=
  st.online && st.portActive port

/-- Outcome of one role's deploy, with the fields the orchestrator reads. -/
structure RoleResult where
  success : Bool
  allocatedPort : Nat
  actualPort : Option Nat
  portChanged : Bool
  note : Option String
deriving DecidableEq, Repr

/-- Embedding of the port-resolution phase of `ClawdBotService.deploy`
after a successful build RPC: `st1`, `st2`, `st3` are the remote states
observed at the supervisor check and first detection attempt, at the
delayed retry, and at the subsequent env lookup and verification.  A
non-online supervisor fails the role; otherwise detection runs twice, then
the supplementary env lookup; with no port found the role succeeds on the
allocated port with a pending note; with a port found, a verification
failure only downgrades to a warning note, never fails the role. -/
def clawdPortPhase (st1 st2 st3 : Pm2State) (allocated : Nat) : RoleResult :=
  if !st1.online then
    { success := false, allocatedPort := allocated, actualPort := none,
      portChanged := false, note := none }
  else
    let detected :=
      match detectActualPort st1 with
      | some p => some p
      | none =>
        match detectActualPort st2 with
        | some p => some p
        | none => extraEnvPortCheck st3
    match detected with
    | none =>
      { success := true, allocatedPort := allocated, actualPort := some allocated,
        portChanged := false,
        note := some "Port detection pending - using allocated port" }
    | some actual =>
      if verifyDeployment st3 actual then
        { success := true, allocatedPort := allocated, actualPort := some actual,
          portChanged := !(actual == allocated), note := none }
      else
        { success := true, allocatedPort := allocated, actualPort := some actual,
          portChanged := !(actual == allocated),
          note := some "Port not yet active - app may still be initializing" }

/-- A state in which every detection source is empty but the process is
online. -/
def stNoPort : Pm2State :=
  { online := true, lsofPorts := [], netstatPorts := [], logMatches := [],
    envEnvPort := none, envPort := none, portActive := fun _ => false }

/-- The same process observed a moment later, its PM2 environment now
carrying PORT=5000. -/
def stLateEnv : Pm2State := { stNoPort with envPort := some 5000 }

/-- C4 counterexample: `detectActualPort` fails on both the initial attempt
and the delayed retry and the supervisor is online, yet the role's deploy
does not fall back to the allocated port 4000: the supplementary
`pm2_env.PORT` lookup that runs after the two attempts picks up 5000, so
the result carries actual port 5000 and not the pending-detection note the
claim requires. -/
theorem c4_env_lookup_preempts_fallback :
    detectActualPort stNoPort = none ∧
    stNoPort.online = true ∧
    (clawdPortPhase stNoPort stNoPort stLateEnv 4000).success = true ∧
    (clawdPortPhase stNoPort stNoPort stLateEnv 4000).actualPort = some 5000 ∧
    (clawdPortPhase stNoPort stNoPort stLateEnv 4000).note ≠
      some "Port detection pending - using allocated port" := by
  refine ⟨rfl, rfl, rfl, rfl, by decide⟩

/-- C4 (amended): when both detection attempts AND the supplementary
`pm2_env.PORT` lookup come back empty while the supervisor reports online,
the role's deploy succeeds with the originally allocated port as the actual
port and the pending-detection note, rather than failing. -/
theorem c4_detection_failure_falls_back_to_allocated (st1 st2 st3 : Pm2State)
    (allocated : Nat) (h1 : st1.online = true) (h2 : detectActualPort st1 = none)
    (h3 : detectActualPort st2 = none) (h4 : extraEnvPortCheck st3 = none) :
    clawdPortPhase st1 st2 st3 allocated =
      { success := true, allocatedPort := allocated, actualPort := some allocated,
        portChanged := false,
        note := some "Port detection pending - using allocated port" } := by
  simp [clawdPortPhase, h1, h2, h3, h4]

/-- C4 witness: the fallback at a concrete all-sources-empty state. -/
theorem c4_detection_failure_witness :
    clawdPortPhase stNoPort stNoPort stNoPort 4000 =
      { success := true, allocatedPort := 4000, actualPort := some 4000,
        portChanged := false,
        note := some "Port detection pending - using allocated port" } :=
  c4_detection_failure_falls_back_to_allocated stNoPort stNoPort stNoPort 4000 rfl rfl rfl rfl

/-- The teardown steps `DeploymentService.deleteDeployment` performs, in
source order. -/
inductive DelStep
  | pm2Front
  | pm2Back
  | nginxFront
  | nginxBack
  | releasePorts
  | purgeLogs
  | removeRecord
deriving DecidableEq, Repr

/-- Environment of a delete call: the returned success of the two PM2
teardowns (ClawdBotService catches internally, so these never throw), and
whether each remaining remote or database step throws (`deleteSubdomainConfig`
rethrows connectivity failures; the two database deletions can reject). -/
structure DelEnv where
  pm2FrontOk : Bool
  pm2BackOk : Bool
  nginxFrontThrows : Bool
  nginxBackThrows : Bool
  purgeThrows : Bool
  removeThrows : Bool
deriving DecidableEq, Repr

/-- The fields of the deployment record the delete path branches on. -/
structure DelDep where
  hasFrontName : Bool
  hasBackName : Bool
  hasSubdomain : Bool
  hasBackRepo : Bool
deriving DecidableEq, Repr

/-- Tail of the delete sequence after the nginx steps: in-memory port-lease
release (pure, cannot throw), log purge, record removal. -/
def delTail (steps : List DelStep) (env : DelEnv) : List DelStep × Option String :=
  let steps := steps ++ [DelStep.releasePorts, DelStep.purgeLogs]
  if env.purgeThrows then (steps, some "log purge failed")
  else
    let steps := steps ++ [DelStep.removeRecord]
    if env.removeThrows then (steps, some "record removal failed")
    else (steps, none)

/-- Embedding of `deleteDeployment`: PM2 teardown per present role (results
ignored), nginx config deletion for the subdomain and, if a backend repo is
present, for its api domain (each of these rethrows on failure, aborting
the remainder), then port release, log purge and record removal.  Returns
the attempted steps in order and the propagated error, if any. -/
def deleteDeployment (d : DelDep) (env : DelEnv) : List DelStep × Option String :=
  let steps := (if d.hasFrontName then [DelStep.pm2Front] else []) ++
               (if d.hasBackName then [DelStep.pm2Back] else [])
  if d.hasSubdomain then
    let steps := steps ++ [DelStep.nginxFront]
    if env.nginxFrontThrows then (steps, some "nginx config deletion failed")
    else if d.hasBackRepo then
      let steps := steps ++ [DelStep.nginxBack]
      if env.nginxBackThrows then (steps, some "nginx config deletion failed")
      else delTail steps env
    else delTail steps env
  else delTail steps env

/-- A two-role deployment record with a subdomain. -/
def delDepFull : DelDep :=
  { hasFrontName := true, hasBackName := true, hasSubdomain := true, hasBackRepo := true }

/-- Delete environment where only the first nginx config deletion throws. -/
def delEnvNginxDown : DelEnv :=
  { pm2FrontOk := true, pm2BackOk := true, nginxFrontThrows := true,
    nginxBackThrows := false, purgeThrows := false, removeThrows := false }

/-- C5 counterexample: when the frontend nginx config deletion throws (a
connectivity failure), the delete call aborts: the backend proxy config,
the in-memory port-lease release, the log purge and the record removal are
never attempted, so one step's failure does block the rest. -/
theorem c5_nginx_throw_blocks_rest :
    deleteDeployment delDepFull delEnvNginxDown =
      ([DelStep.pm2Front, DelStep.pm2Back, DelStep.nginxFront],
       some "nginx config deletion failed") ∧
    DelStep.releasePorts ∉ (deleteDeployment delDepFull delEnvNginxDown).1 ∧
    DelStep.purgeLogs ∉ (deleteDeployment delDepFull delEnvNginxDown).1 ∧
    DelStep.removeRecord ∉ (deleteDeployment delDepFull delEnvNginxDown).1 := by
  refine ⟨rfl, by decide, by decide, by decide⟩

/-- C5 (amended): PM2 teardown failures are captured as per-step results
and never block the remaining steps — when no step throws, every applicable
step is attempted regardless of the PM2 outcomes; but a thrown failure in
nginx config deletion, log purge or record removal aborts the remainder. -/
theorem c5_all_steps_attempted_when_no_throw (d : DelDep) (env : DelEnv)
    (h1 : env.nginxFrontThrows = false) (h2 : env.nginxBackThrows = false)
    (h3 : env.purgeThrows = false) (h4 : env.removeThrows = false) :
    deleteDeployment d env =
      ((if d.hasFrontName then [DelStep.pm2Front] else []) ++
       (if d.hasBackName then [DelStep.pm2Back] else []) ++
       (if d.hasSubdomain then
          DelStep.nginxFront :: (if d.hasBackRepo then [DelStep.nginxBack] else [])
        else []) ++
       [DelStep.releasePorts, DelStep.purgeLogs, DelStep.removeRecord], none) := by
  rcases d with ⟨f, b, s, br⟩
  cases s <;> cases br <;>
    simp [deleteDeployment, delTail, h1, h2, h3, h4, List.append_assoc]

/-- C5 witness: with both PM2 teardowns failing (but nothing throwing),
every step is still attempted and the call completes. -/
theorem c5_all_steps_witness :
    deleteDeployment delDepFull
      { pm2FrontOk := false, pm2BackOk := false, nginxFrontThrows := false,
        nginxBackThrows := false, purgeThrows := false, removeThrows := false } =
      ([DelStep.pm2Front, DelStep.pm2Back, DelStep.nginxFront, DelStep.nginxBack,
        DelStep.releasePorts, DelStep.purgeLogs, DelStep.removeRecord], none) :=
  c5_all_steps_attempted_when_no_throw delDepFull
    { pm2FrontOk := false, pm2BackOk := false, nginxFrontThrows := false,
      nginxBackThrows := false, purgeThrows := false, removeThrows := false }
    rfl rfl rfl rfl

/-- Why a deployment was suspended. -/
inductive SuspReason
  | subscriptionExpired
  | planLimitExceeded
deriving DecidableEq, Repr

/-- A deployment as seen by the subscription monitor: operational status
plus the suspension metadata fields. -/
structure MDep where
  status : DStatus
  suspendedAt : Option Nat
  reason : Option SuspReason
  deleteScheduledAt : Option Nat
deriving DecidableEq, Repr

/-- The user fields the enforcement loop branches on: whether the current
plan is `free` and whether the subscription status is `expired`. -/
structure MUser where
  planFree : Bool
  expired : Bool
deriving DecidableEq, Repr

/-- GRACE_PERIOD_DAYS = 7, converted to milliseconds as in the source. -/
def gracePeriodMs : Nat := 7 * 24 * 60 * 60 * 1000

/-- `allowedDeployments`: a free-plan user keeps 1 deployment, anyone else 0. -/
def allowedDeployments (u : MUser) : Nat := if u.planFree then 1 else 0

/-- Body of the enforcement loop at index `i`: a deployment beyond the
allowance (or any deployment of an expired paid-plan user) that is not
already stopped or suspended is stopped and marked suspended with deadline
now + grace; every other deployment is left untouched. -/
def suspendMark (u : MUser) (now i : Nat) (d : MDep) : MDep :=
  if (decide (allowedDeployments u ≤ i) || (u.expired && !u.planFree)) &&
      !(d.status == .stopped) && !(d.status == .suspended) then
    { status := .suspended, suspendedAt := some now,
      reason := some (if u.expired then .subscriptionExpired else .planLimitExceeded),
      deleteScheduledAt := some (now + gracePeriodMs) }
  else d

/-- The indexed for loop of `enforceSubscriptionLimits`, from index `i`. -/
def enforceMarkFrom (u : MUser) (now i : Nat) : List MDep → List MDep
  | [] => []
  | d :: rest => suspendMark u now i d :: enforceMarkFrom u now (i + 1) rest

/-- The marking pass of `enforceSubscriptionLimits` over the user's
deployment list. -/
def enforceMark (u : MUser) (now : Nat) (ds : List MDep) : List MDep :=
  enforceMarkFrom u now 0 ds

/-- A deployment the user had already stopped, with no suspension data. -/
def stoppedDep : MDep :=
  { status := .stopped, suspendedAt := none, reason := none, deleteScheduledAt := none }

/-- A paid-plan user whose subscription has expired. -/
def expiredPaidUser : MUser := { planFree := false, expired := true }

/-- C6 counterexample: for an expired paid-plan user (allowance 0), a
deployment that is already in status `stopped` is skipped by the
enforcement loop: it is left untouched, never marked `suspended`, and its
delete deadline stays null — though the claim requires every deployment
beyond the allowance to be marked suspended with a non-null deadline. -/
theorem c6_stopped_dep_not_suspended :
    enforceMark expiredPaidUser 0 [stoppedDep] = [stoppedDep] ∧
    stoppedDep.status ≠ .suspended ∧
    stoppedDep.deleteScheduledAt = none := by
  refine ⟨rfl, by decide, rfl⟩

/-- Indexing the marking pass: element `i` of the output is `suspendMark`
applied to element `i` of the input, at absolute index `j + i`. -/
theorem enforceMarkFrom_get? (u : MUser) (now : Nat) (ds : List MDep) (j i : Nat) :
    (enforceMarkFrom u now j ds).get? i = (ds.get? i).map (suspendMark u now (j + i)) := by
  induction ds generalizing j i with
  | nil => simp [enforceMarkFrom]
  | cons d rest ih =>
    cases i with
    | zero => simp [enforceMarkFrom]
    | succ k =>
      have harith : j + 1 + k = j + (k + 1) := by omega
      simpa [enforceMarkFrom, harith] using ih (j + 1) k

/-- C6 (amended): for a user without a usable grant, every deployment
beyond the retained-count allowance (or every deployment, for an expired
paid-plan user) **that is not already stopped or suspended** is marked
suspended with the non-null deadline now + grace; deployments already
stopped or suspended are left untouched. -/
theorem c6_enforce_suspends_active_beyond_allowance (u : MUser) (now : Nat)
    (ds : List MDep) (i : Nat) (d : MDep) (hd : ds.get? i = some d)
    (hcond : allowedDeployments u ≤ i ∨ (u.expired = true ∧ u.planFree = false))
    (hstop : d.status ≠ .stopped) (hsusp : d.status ≠ .suspended) :
    (enforceMark u now ds).get? i =
      some { status := .suspended, suspendedAt := some now,
             reason := some (if u.expired then .subscriptionExpired else .planLimitExceeded),
             deleteScheduledAt := some (now + gracePeriodMs) } := by
  have hbool : (decide (allowedDeployments u ≤ i) || (u.expired && !u.planFree)) = true := by
    rcases hcond with h | ⟨h1, h2⟩
    · simp [h]
    · simp [h1, h2]
  rw [enforceMark, enforceMarkFrom_get?, hd]
  simp [suspendMark, hbool, hstop, hsusp]

/-- C6 witness: an expired paid-plan user's running deployment is suspended
with deadline now + grace. -/
theorem c6_enforce_witness :
    (enforceMark expiredPaidUser 1000
        [{ status := .deployed, suspendedAt := none, reason := none,
           deleteScheduledAt := none }]).get? 0 =
      some { status := .suspended, suspendedAt := some 1000,
             reason := some .subscriptionExpired,
             deleteScheduledAt := some (1000 + gracePeriodMs) } :=
  c6_enforce_suspends_active_beyond_allowance expiredPaidUser 1000
    [{ status := .deployed, suspendedAt := none, reason := none, deleteScheduledAt := none }]
    0 _ rfl (Or.inl (by decide)) (by decide) (by decide)

/-- Re-marking a marked deployment changes nothing: a freshly suspended
record is skipped by the status guard, and a skipped record is skipped
again for the same reason. -/
theorem suspendMark_suspendMark (u : MUser) (now now2 i : Nat) (d : MDep) :
    suspendMark u now2 i (suspendMark u now i d) = suspendMark u now i d := by
  by_cases h : ((decide (allowedDeployments u ≤ i) || (u.expired && !u.planFree)) &&
      !(d.status == .stopped) && !(d.status == .suspended)) = true
  · simp [suspendMark, h]
  · simp [suspendMark, h]

/-- The marking pass is idempotent, from any starting index. -/
theorem enforceMarkFrom_idem (u : MUser) (now now2 j : Nat) (ds : List MDep) :
    enforceMarkFrom u now2 j (enforceMarkFrom u now j ds) = enforceMarkFrom u now j ds := by
  induction ds generalizing j with
  | nil => rfl
  | cons d rest ih => simp [enforceMarkFrom, suspendMark_suspendMark, ih]

/-- C9: running the enforcement marking pass a second consecutive time (at
any later clock reading) returns the first pass's list unchanged — in
particular an already-suspended deployment keeps its delete deadline and
suspension metadata; the deadline is not reset. -/
theorem c9_enforceMark_idempotent (u : MUser) (now now2 : Nat) (ds : List MDep) :
    enforceMark u now2 (enforceMark u now ds) = enforceMark u now ds :=
  enforceMarkFrom_idem u now now2 0 ds

/-- Subscription status values of a user or subscription document. -/
inductive SubStatus
  | none
  | active
  | expired
  | cancelled
deriving DecidableEq, Repr

/-- The user document fields the sweep query reads. -/
structure SUser where
  id : Nat
  planFree : Bool
  status : SubStatus
deriving DecidableEq, Repr

/-- A subscription record: owner, status and validity end. -/
structure SubRec where
  userId : Nat
  status : SubStatus
  currentEnd : Nat
deriving DecidableEq, Repr

/-- Phase-1 user query of `checkExpiredSubscriptions`: subscription_status
`expired`, or `none` with a free current plan. -/
def sweepPhase1Selects (u : SUser) : Bool :=
  u.status == .expired || (u.status == .none && u.planFree)

/-- Phase 2: owners of active subscription records past their validity end
(these are flipped to expired and then enforced). -/
def sweepPhase2Users (subs : List SubRec) (now : Nat) : List Nat :=
  (subs.filter (fun s => s.status == .active && decide (s.currentEnd < now))).map (·.userId)

/-- All user ids whose deployments one sweep enforces (and hence reaps). -/
def sweepUserIds (users : List SUser) (subs : List SubRec) (now : Nat) : List Nat :=
  ((users.filter sweepPhase1Selects).map (·.id)) ++ sweepPhase2Users subs now

/-- The per-user reap query of `deleteExpiredDeployments`: status
`suspended` and `delete_scheduled_at` strictly before now (a null deadline
never matches the query). -/
def reapMatches (d : MDep) (now : Nat) : Bool :=
  d.status == .suspended &&
    (match d.deleteScheduledAt with
     | some t => decide (t < now)
     | none => false)

/-- The deployments a whole sweep passes to `deleteDeployment`: those whose
owner is swept and which match the reap query.  (The marking pass that runs
before the reap inside `enforceSubscriptionLimits` only creates suspensions
with the future deadline now + grace and leaves already-suspended records
untouched, so it cannot add to this set.) -/
def sweepReaped (users : List SUser) (subs : List SubRec)
    (deps : List (Nat × MDep)) (now : Nat) : List (Nat × MDep) :=
  deps.filter (fun p => (sweepUserIds users subs now).contains p.1 && reapMatches p.2 now)

/-- A user whose subscription was cancelled. -/
def cancelledUser : SUser := { id := 1, planFree := false, status := .cancelled }

/-- A user flipped to expired status. -/
def expiredStatusUser : SUser := { id := 1, planFree := false, status := .expired }

/-- A suspended deployment whose delete deadline (5) is already past. -/
def overdueDep : MDep :=
  { status := .suspended, suspendedAt := some 0,
    reason := some .subscriptionExpired, deleteScheduledAt := some 5 }

/-- C7 counterexample: a suspended deployment with a past deadline is NOT
deleted on the next sweep when its owner falls outside the sweep's user
query — here the owner's subscription status is `cancelled`, which matches
neither phase of `checkExpiredSubscriptions`, so the sweep reaps nothing
although the reap query itself would match the deployment. -/
theorem c7_cancelled_owner_never_swept :
    reapMatches overdueDep 10 = true ∧
    sweepReaped [cancelledUser] [] [(1, overdueDep)] 10 = [] := by
  refine ⟨rfl, rfl⟩

/-- The reap query in propositional form. -/
theorem reapMatches_iff (d : MDep) (now : Nat) :
    reapMatches d now = true ↔
      d.status = .suspended ∧ ∃ t, d.deleteScheduledAt = some t ∧ t < now := by
  unfold reapMatches
  rcases hd : d.deleteScheduledAt with _ | t <;> simp [hd]

/-- C7 (amended): a deployment is passed to delete by a sweep exactly when
its owner is selected by the sweep's user query (status `expired`, or
`none` on the free plan, or holder of an active subscription past its end),
its status is `suspended`, and its delete deadline is non-null and strictly
past — so a future-deadline suspension is never reaped, and a past-deadline
one is reaped only if its owner is swept. -/
theorem c7_reaped_iff_swept_suspended_overdue (users : List SUser) (subs : List SubRec)
    (deps : List (Nat × MDep)) (now uid : Nat) (d : MDep) (hmem : (uid, d) ∈ deps) :
    ((uid, d) ∈ sweepReaped users subs deps now ↔
      uid ∈ sweepUserIds users subs now ∧ d.status = .suspended ∧
        ∃ t, d.deleteScheduledAt = some t ∧ t < now) := by
  unfold sweepReaped
  rw [List.mem_filter]
  simp [hmem, reapMatches_iff]

/-- C7 witness: with the owner in expired status, the overdue suspension is
reaped. -/
theorem c7_reaped_witness :
    (1, overdueDep) ∈ sweepReaped [expiredStatusUser] [] [(1, overdueDep)] 10 ↔
      1 ∈ sweepUserIds [expiredStatusUser] [] 10 ∧ overdueDep.status = .suspended ∧
        ∃ t, overdueDep.deleteScheduledAt = some t ∧ t < 10 :=
  c7_reaped_iff_swept_suspended_overdue [expiredStatusUser] [] [(1, overdueDep)] 10 1
    overdueDep (by decide)

/-- Which role a per-role result belongs to. -/
inductive Role
  | frontend
  | backend
deriving DecidableEq, Repr

/-- Result of a stop/restart call: the overall success flag, the per-role
results, and the status written to the record (`none` = left unchanged). -/
structure StopOutcome where
  success : Bool
  results : List (Role × Bool)
  statusUpdate : Option DStatus
deriving DecidableEq, Repr

/-- Embedding of `DeploymentService.stopDeployment`: stop each present
role's process, collect per-role results, and write status `stopped` only
when every collected result succeeded. -/
def stopDeployment (hasFront hasBack frontOk backOk : Bool) : StopOutcome :=
  let results := (if hasFront then [(Role.frontend, frontOk)] else []) ++
                 (if hasBack then [(Role.backend, backOk)] else [])
  let allSuccess := results.all (·.2)
  { success := allSuccess, results := results,
    statusUpdate := if allSuccess then some .stopped else none }

/-- Embedding of `DeploymentService.restartDeployment`: same shape, writing
status `deployed` only on full success. -/
def restartDeployment (hasFront hasBack frontOk backOk : Bool) : StopOutcome :=
  let results := (if hasFront then [(Role.frontend, frontOk)] else []) ++
                 (if hasBack then [(Role.backend, backOk)] else [])
  let allSuccess := results.all (·.2)
  { success := allSuccess, results := results,
    statusUpdate := if allSuccess then some .deployed else none }

/-- C8: stop and restart are all-or-nothing for the status transition: the
status is written (to `stopped`, resp. `deployed`) exactly when every
present role's result succeeded, no status is written exactly when some
role failed, and the per-role results are reported in every case (one per
present role). -/
theorem c8_stop_restart_all_or_nothing (hasFront hasBack frontOk backOk : Bool) :
    ((stopDeployment hasFront hasBack frontOk backOk).statusUpdate = some .stopped ↔
      ∀ r ∈ (stopDeployment hasFront hasBack frontOk backOk).results, r.2 = true) ∧
    ((stopDeployment hasFront hasBack frontOk backOk).statusUpdate = none ↔
      ∃ r ∈ (stopDeployment hasFront hasBack frontOk backOk).results, r.2 = false) ∧
    (stopDeployment hasFront hasBack frontOk backOk).results.length =
      ((if hasFront then 1 else 0) + (if hasBack then 1 else 0)) ∧
    ((restartDeployment hasFront hasBack frontOk backOk).statusUpdate = some .deployed ↔
      ∀ r ∈ (restartDeployment hasFront hasBack frontOk backOk).results, r.2 = true) ∧
    ((restartDeployment hasFront hasBack frontOk backOk).statusUpdate = none ↔
      ∃ r ∈ (restartDeployment hasFront hasBack frontOk backOk).results, r.2 = false) ∧
    (restartDeployment hasFront hasBack frontOk backOk).results.length =
      ((if hasFront then 1 else 0) + (if hasBack then 1 else 0)) := by
  cases hasFront <;> cases hasBack <;> cases frontOk <;> cases backOk <;> decide

/-- MIN_PORT default of the port manager and the SSH manager. -/
def minPort : Nat := 3100

/-- MAX_PORT default of the port manager and the SSH manager. -/
def maxPort : Nat := 8900

/-- Embedding of the remote scan `SSHManager.findFreePort`: the first port
of the configured range with no listening socket, `none` when the whole
range is occupied (the source throws). -/
def sshFindFreePort (listening : Nat → Bool) : Option Nat :=
  (List.range' minPort (maxPort + 1 - minPort)).find? (fun p => !listening p)

/-- Embedding of `PortManager.findFreePort`, with the in-memory `usedPorts`
set threaded through: remote scan, double-check of the candidate, record it
in `usedPorts` — a set that is never consulted — or retry (fuel stands for
the source's unbounded recursion); the host's listening state is fixed
across the call. -/
def findFreePort (listening : Nat → Bool) (used : List Nat) :
    Nat → Option (Nat × List Nat)
  | 0 => none
  | fuel + 1 =>
    match sshFindFreePort listening with
    | none => none
    | some p =>
      if !listening p then some (p, p :: used)
      else findFreePort listening used fuel

/-- Embedding of `findMultipleFreePorts(count)`: `count` sequential
`findFreePort` calls against the same host state; a failure propagates. -/
def findMultipleFreePorts (listening : Nat → Bool) (fuel : Nat) (used : List Nat) :
    Nat → Option (List Nat × List Nat)
  | 0 => some ([], used)
  | n + 1 =>
    match findFreePort listening used fuel with
    | none => none
    | some (p, used2) =>
      match findMultipleFreePorts listening fuel used2 n with
      | none => none
      | some (ps, used3) => some (p :: ps, used3)

/-- C10: port allocation never consults the `usedPorts` set it populates,
and the remote scan deterministically returns the first free port of the
range — so while the host's listening set is unchanged, all `n` ports
returned by `findMultipleFreePorts n` are the same port `p` (a two-role
deployment is allocated one port for both roles). -/
theorem c10_all_allocated_ports_equal (listening : Nat → Bool) (p : Nat)
    (used : List Nat) (fuel n : Nat) (hscan : sshFindFreePort listening = some p)
    (hfuel : 0 < fuel) :
    findMultipleFreePorts listening fuel used n =
      some (List.replicate n p, List.replicate n p ++ used) := by
  have hfree : listening p = false := by
    have := List.find?_some hscan
    simpa using this
  have hstep : ∀ u, findFreePort listening u fuel = some (p, p :: u) := by
    intro u
    cases fuel with
    | zero => omega
    | succ k => simp [findFreePort, hscan, hfree]
  induction n generalizing used with
  | zero => simp [findMultipleFreePorts]
  | succ m ih =>
    rw [findMultipleFreePorts, hstep used]
    have hacc : List.replicate m p ++ (p :: used) = List.replicate (m + 1) p ++ used := by
      rw [List.replicate_succ', List.append_assoc]
      rfl
    simp [ih (p :: used), hacc, List.replicate_succ]

/-- C10 witness: with no listener at all, a two-port request yields the
bottom port 3100 twice. -/
theorem c10_two_roles_same_port :
    findMultipleFreePorts (fun _ => false) 1 [] 2 = some ([3100, 3100], [3100, 3100]) :=
  c10_all_allocated_ports_equal (fun _ => false) 3100 [] 1 2 rfl (by decide)

end FlowDeploy
